import Mathlib

/-!
Verification of the EDM-Limits conversion library.

The development shallowly embeds the two core modules:

* `Hadronic` embeds `hadronic.py`: the `EDMLimit` value object, the
  per-system conversion properties (neutron, Hg, Xe, TlF, Ra, Yb), the
  `cEDM_Hg` helper and the mass-scale function.
* `Schiff` embeds `schiff.py`: `MeasurementSettings`, the frequency
  sensitivity formula, `Molecule`, the forward sensitivity pipeline and
  the (duplicated) mass-scale function.
* `Electron` embeds `electron.py`.

Floats are modelled as real numbers; `Real.sqrt` stands for `numpy.sqrt`
and `Real.pi` for `numpy.pi`.  Python attribute reads translate to field
projections; a property body with no statement (`pass`) returns `None`,
modelled as `Option.none`, and a raised exception is modelled with
`Except.error`.
-/

noncomputable section

namespace EDMLimits

/-- Exceptions that the Python runtime can raise in the modelled code:
a `TypeError` (e.g. multiplying `None` by a float), or the
`UnimplementedConversion` error named by the design document (which does
not occur anywhere in the source). -/
inductive PyError where
  | typeError
  | unimplementedConversion
deriving DecidableEq

/-- State of an `EDMLimit` instance (`hadronic.py`, class `EDMLimit`):
the three attributes set by `__init__`.  All concrete system variants
store exactly these fields; they differ only in their properties. -/
structure EDMLimit where
  year : ℤ
  edm_e_cm : ℝ
  ref : String

namespace Hadronic

/-- `hadronic.py` base class `EDMLimit.theta_QCD`: the body is `pass`,
so the property returns `None` and raises nothing. -/
def EDMLimit.theta_QCD_query (_ : EDMLimit) : Except PyError (Option ℝ) :=
  Except.ok Option.none

/-- `hadronic.py` base class `EDMLimit.cEDM`: the body is `pass`,
so the property returns `None` and raises nothing. -/
def EDMLimit.cEDM_query (_ : EDMLimit) : Except PyError (Option ℝ) :=
  Except.ok Option.none

/-- `hadronic.py`, `cEDM_Hg`: chromo-EDM bound from a Hg EDM bound. -/
def cEDM_Hg (d_Hg : ℝ) : ℝ :=
  let factor := 5.7e-27 / 7.4e-30
  d_Hg * factor

/-- `hadronic.py`, `chromo_EDM_limits_on_new_particle_mass`:
one-loop mass limits in TeV from quark chromo EDM limits. -/
def chromo_EDM_limits_on_new_particle_mass (d_q : ℝ) : ℝ :=
  let alpha : ℝ := 1 / 137
  let m_q : ℝ := 5
  let prefactor := alpha * m_q / Real.pi
  let cm_to_fm : ℝ := 10 ^ 15 / 10 ^ 2
  let d_q_fm := d_q * cm_to_fm
  let fm_to_inv_MeV : ℝ := 1 / 197
  let d_q_inv_MeV := d_q_fm * fm_to_inv_MeV
  let MeV_to_TeV : ℝ := (1.0 / 1e-6) * (1e-12 / 1.0)
  MeV_to_TeV * Real.sqrt (prefactor * 1 / d_q_inv_MeV)

/-- Python evaluation of `chromo_EDM_limits_on_new_particle_mass` on an
argument that may be `None`: the first use of `d_q` is the
multiplication `d_q * cm_to_fm`, which raises `TypeError` when `d_q` is
`None` (unsupported operand types for `*`: NoneType and float). -/
def chromo_EDM_mass_on_py_value (v : Option ℝ) : Except PyError ℝ :=
  match v with
  | Option.none => Except.error PyError.typeError
  | Option.some d_q => Except.ok (chromo_EDM_limits_on_new_particle_mass d_q)

/-- `EDMLimit.new_particle_mass_from_cEDM` as evaluated on the abstract
base class: `self.cEDM` resolves to the base property (returning
`None`), whose result is fed to the mass-scale function. -/
def EDMLimit.new_particle_mass_from_cEDM_query (l : EDMLimit) : Except PyError ℝ :=
  match EDMLimit.cEDM_query l with
  | Except.error e => Except.error e
  | Except.ok v => chromo_EDM_mass_on_py_value v

namespace NeutronLimit

/-- `NeutronLimit.theta_QCD` (PRL 115, 062001 (2015), Eq. 19). -/
def theta_QCD (l : EDMLimit) : ℝ :=
  let n_edm_theta_factor : ℝ := 0.0039
  let factor_in_cm := n_edm_theta_factor * (1e2 / 1e15)
  l.edm_e_cm / factor_in_cm

/-- `NeutronLimit.cEDM`: bound on d_d + 0.5 d_u from a neutron EDM bound. -/
def cEDM (l : EDMLimit) : ℝ :=
  l.edm_e_cm / 0.55

/-- `new_particle_mass_from_cEDM` as dispatched on a `NeutronLimit`
instance: the base-class body `chromo_EDM_limits_on_new_particle_mass(self.cEDM)`
with `self.cEDM` resolving to the neutron override. -/
def new_particle_mass_from_cEDM (l : EDMLimit) : ℝ :=
  chromo_EDM_limits_on_new_particle_mass (cEDM l)

end NeutronLimit

namespace HgLimit

/-- `HgLimit.theta_QCD` (Graner, et al. PRL 116, 161601 (2016)). -/
def theta_QCD (l : EDMLimit) : ℝ :=
  let graner_ratio := (7.4e-30 : ℝ) / 1.5e-10
  l.edm_e_cm / graner_ratio

/-- `HgLimit.cEDM`: bound on d_u - d_d from a Hg EDM bound. -/
def cEDM (l : EDMLimit) : ℝ :=
  cEDM_Hg l.edm_e_cm

/-- `new_particle_mass_from_cEDM` as dispatched on a `HgLimit` instance. -/
def new_particle_mass_from_cEDM (l : EDMLimit) : ℝ :=
  chromo_EDM_limits_on_new_particle_mass (cEDM l)

end HgLimit

namespace XeLimit

/-- `XeLimit.theta_QCD` (Table V of PhysRevC.91.035502). -/
def theta_QCD (l : EDMLimit) : ℝ :=
  let Hg_factor := (7.4e-30 : ℝ) / 1.5e-10
  let Xe_Hg_factor : ℝ := 10.0
  l.edm_e_cm * Xe_Hg_factor / Hg_factor

/-- `XeLimit.cEDM`: bound on d_u - d_d from a Xe EDM bound. -/
def cEDM (l : EDMLimit) : ℝ :=
  let eff_d_Hg := l.edm_e_cm * 10.0
  cEDM_Hg eff_d_Hg

/-- `new_particle_mass_from_cEDM` as dispatched on a `XeLimit` instance. -/
def new_particle_mass_from_cEDM (l : EDMLimit) : ℝ :=
  chromo_EDM_limits_on_new_particle_mass (cEDM l)

end XeLimit

namespace TlFLimit

/-- `TlFLimit._schiff_limit`: Schiff moment limit from the atomic EDM
(Table VII of Cho1991). -/
def schiff_limit (l : EDMLimit) : ℝ :=
  let Cho1991_Schiff_limit : ℝ := 4e-10
  let Cho1991_TlF_EDM_limit : ℝ := 2.9e-23
  let EDM_to_schiff_for_TlF := Cho1991_Schiff_limit / Cho1991_TlF_EDM_limit
  EDM_to_schiff_for_TlF * l.edm_e_cm

/-- `TlFLimit.theta_QCD` (Flambaum2020a, Eq. 17). -/
def theta_QCD (l : EDMLimit) : ℝ :=
  let theta_factor : ℝ := 0.027
  schiff_limit l / theta_factor

/-- `TlFLimit.cEDM` (Flambaum2020a, Eq. 18). -/
def cEDM (l : EDMLimit) : ℝ :=
  let cEDM_factor : ℝ := 10
  schiff_limit l / cEDM_factor / 1e13

/-- `new_particle_mass_from_cEDM` as dispatched on a `TlFLimit` instance. -/
def new_particle_mass_from_cEDM (l : EDMLimit) : ℝ :=
  chromo_EDM_limits_on_new_particle_mass (cEDM l)

end TlFLimit

namespace RaLimit

/-- `RaLimit._schiff_limit`: Schiff moment limit from the atomic EDM
limit (Dzuba2002a Eq. 16). -/
def schiff_limit (l : EDMLimit) : ℝ :=
  let kappa_s : ℝ := 8.5e-4
  let edm_e_fm := l.edm_e_cm * (1e15 / 1e2)
  let schiff_moment_limit := edm_e_fm / kappa_s
  schiff_moment_limit

/-- `RaLimit.theta_QCD` (Flambaum2019 Eq. 11). -/
def theta_QCD (l : EDMLimit) : ℝ :=
  schiff_limit l

/-- `RaLimit._g1`: limit on g1 (Ban2010 Eq. 7). -/
def g1 (l : EDMLimit) : ℝ :=
  let a1 : ℝ := 6.0
  let g : ℝ := 13.5
  let g1_limit := schiff_limit l / (a1 * g)
  g1_limit

/-- `RaLimit.cEDM` (Pospelov2002). -/
def cEDM (l : EDMLimit) : ℝ :=
  g1 l / (2e14)

/-- `new_particle_mass_from_cEDM` as dispatched on a `RaLimit` instance. -/
def new_particle_mass_from_cEDM (l : EDMLimit) : ℝ :=
  chromo_EDM_limits_on_new_particle_mass (cEDM l)

end RaLimit

namespace YbLimit

/-- `YbLimit._schiff_limit`: Schiff moment limit from the atomic EDM
limit (Flambaum2020a Table III). -/
def schiff_limit (l : EDMLimit) : ℝ :=
  let kappa_s : ℝ := 1.88e-4
  let edm_e_fm := l.edm_e_cm * (1e15 / 1e2)
  let schiff_moment_limit := edm_e_fm / kappa_s
  schiff_moment_limit

/-- `YbLimit.theta_QCD` (Flambaum2020a Table IV). -/
def theta_QCD (l : EDMLimit) : ℝ :=
  let theta_QCD_to_Schiff : ℝ := 0.005
  schiff_limit l / theta_QCD_to_Schiff

/-- `YbLimit.cEDM` (Dzuba2007 Eq. 9). -/
def cEDM (l : EDMLimit) : ℝ :=
  let d_Yb_equivalent_d_Hg : ℝ := 0.6
  let eff_d_Hg := l.edm_e_cm / d_Yb_equivalent_d_Hg
  cEDM_Hg eff_d_Hg

/-- `new_particle_mass_from_cEDM` as dispatched on a `YbLimit` instance. -/
def new_particle_mass_from_cEDM (l : EDMLimit) : ℝ :=
  chromo_EDM_limits_on_new_particle_mass (cEDM l)

end YbLimit

end Hadronic

namespace Electron

/-- `electron.py`, `eEDMLimit.one_loop_mass_limit`. -/
def one_loop_mass_limit (l : EDMLimit) : ℝ :=
  48 * Real.sqrt (1e-29 / l.edm_e_cm)

/-- `electron.py`, `eEDMLimit.two_loop_mass_limit`. -/
def two_loop_mass_limit (l : EDMLimit) : ℝ :=
  2 * Real.sqrt (1e-29 / l.edm_e_cm)

/-- `eEDMLimit.cEDM`: the electron class defines no `cEDM` (a copied
neutron body is commented out), so the query resolves to the inherited
base-class property, which returns `None`. -/
def cEDM_query (l : EDMLimit) : Except PyError (Option ℝ) :=
  Hadronic.EDMLimit.cEDM_query l

/-- `eEDMLimit.theta_QCD`: resolves to the inherited base-class
property, which returns `None`. -/
def theta_QCD_query (l : EDMLimit) : Except PyError (Option ℝ) :=
  Hadronic.EDMLimit.theta_QCD_query l

/-- `eEDMLimit.new_particle_mass_from_cEDM`: the electron class does
not override the property or `cEDM`, so the inherited base-class body
runs with `self.cEDM` returning `None`. -/
def new_particle_mass_from_cEDM_query (l : EDMLimit) : Except PyError ℝ :=
  Hadronic.EDMLimit.new_particle_mass_from_cEDM_query l

end Electron

namespace Schiff

/-- `schiff.py`, class `MeasurementSettings`: the attributes set by
`__init__`.  Python does not restrict their types; all uses are numeric,
so they are modelled as reals. -/
structure MeasurementSettings where
  particle_number : ℝ
  efficiency : ℝ
  measurement_time : ℝ
  down_time : ℝ
  coherence_time : ℝ

/-- `MeasurementSettings()` with all defaults:
`particle_number=1, efficiency=0.99, measurement_time=864000,
down_time=30e-3, coherence_time=100`. -/
def defaultSettings : MeasurementSettings :=
  { particle_number := 1
    efficiency := 0.99
    measurement_time := 864000
    down_time := 30e-3
    coherence_time := 100 }

/-- `schiff.py`, `frequency_sensitivity_Hz`: statistical frequency
sensitivity of a measurement in Hertz. -/
def frequency_sensitivity_Hz (measurement_settings : MeasurementSettings) : ℝ :=
  let ms := measurement_settings
  let T_total := ms.measurement_time
  let T_down := ms.down_time
  let tau := ms.coherence_time
  let beta := ms.efficiency
  let N := ms.particle_number
  let prefactor := 2 * Real.pi * tau * beta
  let denominator := prefactor * Real.sqrt (N * T_total / (tau + T_down))
  1 / denominator

/-- `scipy.constants.e` (elementary charge, 2018 CODATA). -/
def const_e : ℝ := 1.602176634e-19

/-- `scipy.constants.epsilon_0` (vacuum permittivity, 2018 CODATA). -/
def const_epsilon_0 : ℝ := 8.8541878128e-12

/-- `scipy.constants.hbar` (reduced Planck constant, 2018 CODATA). -/
def const_hbar : ℝ := 1.054571817e-34

/-- `scipy.constants.physical_constants["Bohr radius"][0]` (2018 CODATA). -/
def const_bohr_radius : ℝ := 5.29177210903e-11

/-- `schiff.py`, class `Molecule`: the attributes set by `__init__`. -/
structure Molecule where
  W_S : ℝ
  K_S : ℝ
  a_0 : ℝ
  a_1 : ℝ
  a_2 : ℝ
  nucleus_E_field_alignment : ℝ

/-- `Molecule()` with all defaults (radium-225 values):
`W_S=45000, K_S=1.0, a_0=-1.5, a_1=6.0, a_2=-4.0`, and
`nucleus_E_field_alignment=0.25` set in the constructor body. -/
def defaultMolecule : Molecule :=
  { W_S := 45000
    K_S := 1.0
    a_0 := -1.5
    a_1 := 6.0
    a_2 := -4.0
    nucleus_E_field_alignment := 0.25 }

/-- `Molecule.schiff_SI`: Schiff moment in SI units. -/
def Molecule.schiff_SI (m : Molecule) : ℝ :=
  let fm : ℝ := 1e-15
  let Schiff_au_to_SI := const_e * fm ^ (3.0 : ℝ)
  Schiff_au_to_SI * m.K_S

/-- `Molecule.W_S_SI`: molecular enhancement factor in SI units. -/
def Molecule.W_S_SI (m : Molecule) : ℝ :=
  let bohr_radius := const_bohr_radius
  let electric_const := 4.0 * Real.pi * const_epsilon_0
  let W_S_au_to_SI := const_e / (electric_const * bohr_radius ^ (4.0 : ℝ))
  W_S_au_to_SI * m.W_S

/-- `schiff.py`, `theta_QCD_sensitivity`. -/
def theta_QCD_sensitivity (measurement_settings : MeasurementSettings)
    (molecule : Molecule) : ℝ :=
  let delta_omega := 2 * Real.pi * frequency_sensitivity_Hz measurement_settings
  let S := molecule.schiff_SI
  let W_S := molecule.W_S_SI
  let opposite_state_enhancement : ℝ := 2
  let orientation_enhancement :=
    1.0 / (opposite_state_enhancement * molecule.nucleus_E_field_alignment)
  orientation_enhancement * const_hbar * delta_omega / (W_S * S)

/-- `schiff.py`, `schiff_moment_sensitivity`. -/
def schiff_moment_sensitivity (measurement_settings : MeasurementSettings)
    (molecule : Molecule) : ℝ :=
  let theta_limit := theta_QCD_sensitivity measurement_settings molecule
  molecule.K_S * theta_limit

/-- `schiff.py`, `_g_pi_NN_to_Schiff_prefactor`: factor converting
a_i*g_i products to a Schiff moment (Eq. 4.168 of Engel2013). -/
def g_pi_NN_to_Schiff_factor : ℝ :=
  let delta_u_p : ℝ := 0.746
  let delta_u_n : ℝ := -0.508
  let g_A := delta_u_p - delta_u_n
  let F_pi : ℝ := 185
  let m_N : ℝ := 995
  2.0 * m_N * g_A / F_pi

/-- `schiff.py`, `g_0_sensitivity`. -/
def g_0_sensitivity (measurement_settings : MeasurementSettings)
    (molecule : Molecule) : ℝ :=
  let schiff_limit := schiff_moment_sensitivity measurement_settings molecule
  let prefactor := g_pi_NN_to_Schiff_factor
  |schiff_limit / (prefactor * molecule.a_0)|

/-- `schiff.py`, `g_1_sensitivity`. -/
def g_1_sensitivity (measurement_settings : MeasurementSettings)
    (molecule : Molecule) : ℝ :=
  let schiff_limit := schiff_moment_sensitivity measurement_settings molecule
  let prefactor := g_pi_NN_to_Schiff_factor
  schiff_limit / (prefactor * molecule.a_1)

/-- `schiff.py`, `g_2_sensitivity`. -/
def g_2_sensitivity (measurement_settings : MeasurementSettings)
    (molecule : Molecule) : ℝ :=
  let schiff_limit := schiff_moment_sensitivity measurement_settings molecule
  let prefactor := g_pi_NN_to_Schiff_factor
  |schiff_limit / (prefactor * molecule.a_2)|

/-- `schiff.py`, `up_down_quark_difference_chromo_EDM_sensitivity`. -/
def up_down_quark_difference_chromo_EDM_sensitivity
    (measurement_settings : MeasurementSettings) (molecule : Molecule) : ℝ :=
  let quark_chromo_factor : ℝ := 2e14
  let g_1_limit := g_1_sensitivity measurement_settings molecule
  let d_u_minus_d_d := g_1_limit / quark_chromo_factor
  d_u_minus_d_d

/-- `schiff.py`, `radium_225_EDM_sensitivity` (Eq. 16 in Dzuba2002a). -/
def radium_225_EDM_sensitivity (measurement_settings : MeasurementSettings)
    (molecule : Molecule) : ℝ :=
  let schiff_limit := schiff_moment_sensitivity measurement_settings molecule
  |(-8.5e-17) * schiff_limit|

/-- `schiff.py`, `chromo_EDM_limits_on_new_particle_mass`: a verbatim
copy of the function of the same name in `hadronic.py`. -/
def chromo_EDM_limits_on_new_particle_mass (d_q : ℝ) : ℝ :=
  let alpha : ℝ := 1 / 137
  let m_q : ℝ := 5
  let prefactor := alpha * m_q / Real.pi
  let cm_to_fm : ℝ := 10 ^ 15 / 10 ^ 2
  let d_q_fm := d_q * cm_to_fm
  let fm_to_inv_MeV : ℝ := 1 / 197
  let d_q_inv_MeV := d_q_fm * fm_to_inv_MeV
  let MeV_to_TeV : ℝ := (1.0 / 1e-6) * (1e-12 / 1.0)
  MeV_to_TeV * Real.sqrt (prefactor * 1 / d_q_inv_MeV)

end Schiff

namespace Hadronic

/-!
State-passing evaluation of the property getters.  Each Python property
body only reads attributes of `self` (and of module-level constants) and
contains no assignment, so its evaluation is rendered as a function from
the instance state to a result value paired with the instance state
after evaluation.  Reads of another property of `self` are threaded
through the state explicitly.
-/

/-- State-passing evaluation of `NeutronLimit.theta_QCD`. -/
def NeutronLimit.theta_QCD_run (l : EDMLimit) : ℝ × EDMLimit :=
  let n_edm_theta_factor : ℝ := 0.0039
  let factor_in_cm := n_edm_theta_factor * (1e2 / 1e15)
  (l.edm_e_cm / factor_in_cm, l)

/-- State-passing evaluation of `NeutronLimit.cEDM`. -/
def NeutronLimit.cEDM_run (l : EDMLimit) : ℝ × EDMLimit :=
  (l.edm_e_cm / 0.55, l)

/-- State-passing evaluation of `new_particle_mass_from_cEDM` on a
`NeutronLimit` instance: evaluates `self.cEDM`, then applies the
module-level mass-scale function. -/
def NeutronLimit.new_particle_mass_from_cEDM_run (l : EDMLimit) : ℝ × EDMLimit :=
  let c := NeutronLimit.cEDM_run l
  (chromo_EDM_limits_on_new_particle_mass c.1, c.2)

/-- State-passing evaluation of `HgLimit.theta_QCD`. -/
def HgLimit.theta_QCD_run (l : EDMLimit) : ℝ × EDMLimit :=
  let graner_ratio := (7.4e-30 : ℝ) / 1.5e-10
  (l.edm_e_cm / graner_ratio, l)

/-- State-passing evaluation of `HgLimit.cEDM`. -/
def HgLimit.cEDM_run (l : EDMLimit) : ℝ × EDMLimit :=
  (cEDM_Hg l.edm_e_cm, l)

/-- State-passing evaluation of `new_particle_mass_from_cEDM` on a
`HgLimit` instance. -/
def HgLimit.new_particle_mass_from_cEDM_run (l : EDMLimit) : ℝ × EDMLimit :=
  let c := HgLimit.cEDM_run l
  (chromo_EDM_limits_on_new_particle_mass c.1, c.2)

/-- State-passing evaluation of `XeLimit.theta_QCD`. -/
def XeLimit.theta_QCD_run (l : EDMLimit) : ℝ × EDMLimit :=
  let Hg_factor := (7.4e-30 : ℝ) / 1.5e-10
  let Xe_Hg_factor : ℝ := 10.0
  (l.edm_e_cm * Xe_Hg_factor / Hg_factor, l)

/-- State-passing evaluation of `XeLimit.cEDM`. -/
def XeLimit.cEDM_run (l : EDMLimit) : ℝ × EDMLimit :=
  let eff_d_Hg := l.edm_e_cm * 10.0
  (cEDM_Hg eff_d_Hg, l)

/-- State-passing evaluation of `new_particle_mass_from_cEDM` on a
`XeLimit` instance. -/
def XeLimit.new_particle_mass_from_cEDM_run (l : EDMLimit) : ℝ × EDMLimit :=
  let c := XeLimit.cEDM_run l
  (chromo_EDM_limits_on_new_particle_mass c.1, c.2)

/-- State-passing evaluation of `TlFLimit._schiff_limit`. -/
def TlFLimit.schiff_limit_run (l : EDMLimit) : ℝ × EDMLimit :=
  let Cho1991_Schiff_limit : ℝ := 4e-10
  let Cho1991_TlF_EDM_limit : ℝ := 2.9e-23
  let EDM_to_schiff_for_TlF := Cho1991_Schiff_limit / Cho1991_TlF_EDM_limit
  (EDM_to_schiff_for_TlF * l.edm_e_cm, l)

/-- State-passing evaluation of `TlFLimit.theta_QCD`, which reads
`self._schiff_limit`. -/
def TlFLimit.theta_QCD_run (l : EDMLimit) : ℝ × EDMLimit :=
  let theta_factor : ℝ := 0.027
  let s := TlFLimit.schiff_limit_run l
  (s.1 / theta_factor, s.2)

/-- State-passing evaluation of `TlFLimit.cEDM`, which reads
`self._schiff_limit`. -/
def TlFLimit.cEDM_run (l : EDMLimit) : ℝ × EDMLimit :=
  let cEDM_factor : ℝ := 10
  let s := TlFLimit.schiff_limit_run l
  (s.1 / cEDM_factor / 1e13, s.2)

/-- State-passing evaluation of `new_particle_mass_from_cEDM` on a
`TlFLimit` instance. -/
def TlFLimit.new_particle_mass_from_cEDM_run (l : EDMLimit) : ℝ × EDMLimit :=
  let c := TlFLimit.cEDM_run l
  (chromo_EDM_limits_on_new_particle_mass c.1, c.2)

/-- State-passing evaluation of `RaLimit._schiff_limit`. -/
def RaLimit.schiff_limit_run (l : EDMLimit) : ℝ × EDMLimit :=
  let kappa_s : ℝ := 8.5e-4
  let edm_e_fm := l.edm_e_cm * (1e15 / 1e2)
  (edm_e_fm / kappa_s, l)

/-- State-passing evaluation of `RaLimit.theta_QCD`, which reads
`self._schiff_limit`. -/
def RaLimit.theta_QCD_run (l : EDMLimit) : ℝ × EDMLimit :=
  let s := RaLimit.schiff_limit_run l
  (s.1, s.2)

/-- State-passing evaluation of `RaLimit._g1`, which reads
`self._schiff_limit`. -/
def RaLimit.g1_run (l : EDMLimit) : ℝ × EDMLimit :=
  let a1 : ℝ := 6.0
  let g : ℝ := 13.5
  let s := RaLimit.schiff_limit_run l
  (s.1 / (a1 * g), s.2)

/-- State-passing evaluation of `RaLimit.cEDM`, which reads `self._g1`. -/
def RaLimit.cEDM_run (l : EDMLimit) : ℝ × EDMLimit :=
  let s := RaLimit.g1_run l
  (s.1 / (2e14), s.2)

/-- State-passing evaluation of `new_particle_mass_from_cEDM` on a
`RaLimit` instance. -/
def RaLimit.new_particle_mass_from_cEDM_run (l : EDMLimit) : ℝ × EDMLimit :=
  let c := RaLimit.cEDM_run l
  (chromo_EDM_limits_on_new_particle_mass c.1, c.2)

/-- State-passing evaluation of `YbLimit._schiff_limit`. -/
def YbLimit.schiff_limit_run (l : EDMLimit) : ℝ × EDMLimit :=
  let kappa_s : ℝ := 1.88e-4
  let edm_e_fm := l.edm_e_cm * (1e15 / 1e2)
  (edm_e_fm / kappa_s, l)

/-- State-passing evaluation of `YbLimit.theta_QCD`, which reads
`self._schiff_limit`. -/
def YbLimit.theta_QCD_run (l : EDMLimit) : ℝ × EDMLimit :=
  let theta_QCD_to_Schiff : ℝ := 0.005
  let s := YbLimit.schiff_limit_run l
  (s.1 / theta_QCD_to_Schiff, s.2)

/-- State-passing evaluation of `YbLimit.cEDM`. -/
def YbLimit.cEDM_run (l : EDMLimit) : ℝ × EDMLimit :=
  let d_Yb_equivalent_d_Hg : ℝ := 0.6
  let eff_d_Hg := l.edm_e_cm / d_Yb_equivalent_d_Hg
  (cEDM_Hg eff_d_Hg, l)

/-- State-passing evaluation of `new_particle_mass_from_cEDM` on a
`YbLimit` instance. -/
def YbLimit.new_particle_mass_from_cEDM_run (l : EDMLimit) : ℝ × EDMLimit :=
  let c := YbLimit.cEDM_run l
  (chromo_EDM_limits_on_new_particle_mass c.1, c.2)

end Hadronic

namespace Electron

/-- State-passing evaluation of `eEDMLimit.one_loop_mass_limit`. -/
def one_loop_mass_limit_run (l : EDMLimit) : ℝ × EDMLimit :=
  (48 * Real.sqrt (1e-29 / l.edm_e_cm), l)

/-- State-passing evaluation of `eEDMLimit.two_loop_mass_limit`. -/
def two_loop_mass_limit_run (l : EDMLimit) : ℝ × EDMLimit :=
  (2 * Real.sqrt (1e-29 / l.edm_e_cm), l)

end Electron

/-!
Claim theorems.
-/

/-- C1: for every concrete hadronic variant and every `edm_bound`, the
derived theta_QCD and chromo-EDM values equal exactly the per-system
formulas of the design table: neutron divides by `0.0039*(1e2/1e15)`
resp. `0.55`; Hg divides by `7.4e-30/1.5e-10` resp. multiplies by
`5.7e-27/7.4e-30`; Xe multiplies by `10*(1.5e-10/7.4e-30)` resp. applies
the Hg rule to ten times the bound; TlF, Ra and Yb go through their
Schiff helpers; and in particular the neutron instance
`(2020, 1e-26, "x")` has chromo-EDM limit exactly `1e-26/0.55`. -/
theorem claim_C1_per_system_formulas (l : EDMLimit) :
    Hadronic.NeutronLimit.theta_QCD l = l.edm_e_cm / (0.0039 * (1e2 / 1e15)) ∧
    Hadronic.NeutronLimit.cEDM l = l.edm_e_cm / 0.55 ∧
    Hadronic.HgLimit.theta_QCD l = l.edm_e_cm / (7.4e-30 / 1.5e-10) ∧
    Hadronic.HgLimit.cEDM l = l.edm_e_cm * (5.7e-27 / 7.4e-30) ∧
    Hadronic.XeLimit.theta_QCD l = l.edm_e_cm * 10 * (1.5e-10 / 7.4e-30) ∧
    Hadronic.XeLimit.cEDM l = Hadronic.cEDM_Hg (l.edm_e_cm * 10) ∧
    Hadronic.TlFLimit.schiff_limit l = (4e-10 / 2.9e-23) * l.edm_e_cm ∧
    Hadronic.TlFLimit.theta_QCD l = Hadronic.TlFLimit.schiff_limit l / 0.027 ∧
    Hadronic.TlFLimit.cEDM l = Hadronic.TlFLimit.schiff_limit l / 10 / 1e13 ∧
    Hadronic.RaLimit.schiff_limit l = l.edm_e_cm * 1e13 / 8.5e-4 ∧
    Hadronic.RaLimit.theta_QCD l = Hadronic.RaLimit.schiff_limit l ∧
    Hadronic.RaLimit.cEDM l = Hadronic.RaLimit.schiff_limit l / (6.0 * 13.5) / 2e14 ∧
    Hadronic.YbLimit.schiff_limit l = l.edm_e_cm * 1e13 / 1.88e-4 ∧
    Hadronic.YbLimit.theta_QCD l = Hadronic.YbLimit.schiff_limit l / 0.005 ∧
    Hadronic.YbLimit.cEDM l = Hadronic.cEDM_Hg (l.edm_e_cm / 0.6) ∧
    Hadronic.NeutronLimit.cEDM ⟨2020, 1e-26, "x"⟩ = 1e-26 / 0.55 := by
  refine ⟨rfl, rfl, rfl, rfl, ?_, ?_, rfl, rfl, rfl, ?_, rfl, rfl, ?_, rfl, rfl, rfl⟩
  · simp only [Hadronic.XeLimit.theta_QCD]
    rw [div_div_eq_mul_div]
    ring_nf
  · simp only [Hadronic.XeLimit.cEDM]
    norm_num
  · simp only [Hadronic.RaLimit.schiff_limit]
    norm_num
  · simp only [Hadronic.YbLimit.schiff_limit]
    norm_num

/-- C2: for every measurement settings with positive coherence time,
efficiency, particle number and measurement time and nonnegative down
time, `frequency_sensitivity_Hz` equals
`1/(2 pi tau beta sqrt(N T_total/(tau + T_down)))`, and at the default
settings the value is within `1e-6` of `1.73e-5` Hz. -/
theorem claim_C2_frequency_sensitivity_formula (s : Schiff.MeasurementSettings)
    (htau : 0 < s.coherence_time) (hbeta : 0 < s.efficiency)
    (hN : 0 < s.particle_number) (hT : 0 < s.measurement_time)
    (hdown : 0 ≤ s.down_time) :
    Schiff.frequency_sensitivity_Hz s =
      1 / (2 * Real.pi * s.coherence_time * s.efficiency *
        Real.sqrt (s.particle_number * s.measurement_time /
          (s.coherence_time + s.down_time))) ∧
    |Schiff.frequency_sensitivity_Hz Schiff.defaultSettings - 1.73e-5| ≤ 1e-6 := by
  refine ⟨rfl, ?_⟩
  simp only [Schiff.frequency_sensitivity_Hz, Schiff.defaultSettings]
  rw [show (1 : ℝ) * 864000 / (100 + 30e-3) = 86400000 / 10003 by norm_num]
  set q := Real.sqrt (86400000 / 10003) with hq_def
  have hs_lo : (92.9 : ℝ) < q := by
    rw [hq_def, Real.lt_sqrt (by norm_num)]
    norm_num
  have hs_hi : q < 93 := by
    rw [hq_def, Real.sqrt_lt' (by norm_num)]
    norm_num
  have hq_pos : (0 : ℝ) < q := lt_trans (by norm_num) hs_lo
  have hpi_lo := Real.pi_gt_d2
  have hpi_hi := Real.pi_lt_d2
  have hD : (0 : ℝ) < 2 * Real.pi * 100 * 0.99 * q := by
    have h1 := mul_pos Real.pi_pos hq_pos
    nlinarith
  rw [abs_le]
  constructor
  · have h : (1.63e-5 : ℝ) ≤ 1 / (2 * Real.pi * 100 * 0.99 * q) := by
      rw [le_div_iff hD]
      nlinarith
    linarith
  · have h : 1 / (2 * Real.pi * 100 * 0.99 * q) ≤ 1.83e-5 := by
      rw [div_le_iff hD]
      nlinarith
    linarith

/-- Witness for C2: the hypotheses hold at the default settings, and the
theorem applied there gives the closed-form value. -/
theorem claim_C2_witness :
    (0 : ℝ) < Schiff.defaultSettings.coherence_time ∧
    |Schiff.frequency_sensitivity_Hz Schiff.defaultSettings - 1.73e-5| ≤ 1e-6 :=
  ⟨by norm_num [Schiff.defaultSettings],
    (claim_C2_frequency_sensitivity_formula Schiff.defaultSettings
      (by norm_num [Schiff.defaultSettings]) (by norm_num [Schiff.defaultSettings])
      (by norm_num [Schiff.defaultSettings]) (by norm_num [Schiff.defaultSettings])
      (by norm_num [Schiff.defaultSettings])).2⟩

/-- C3 counterexample: on the concrete instance `(2020, 1e-26, "x")`, a
theta_QCD query on the abstract base and a chromo-EDM query on the
electron variant both return `None` as an ordinary value; neither
raises an `UnimplementedConversion` error, contrary to the claim. -/
theorem claim_C3_counterexample :
    Hadronic.EDMLimit.theta_QCD_query ⟨2020, 1e-26, "x"⟩ = Except.ok Option.none ∧
    Hadronic.EDMLimit.theta_QCD_query ⟨2020, 1e-26, "x"⟩ ≠
      Except.error PyError.unimplementedConversion ∧
    Electron.cEDM_query ⟨2020, 1e-26, "x"⟩ = Except.ok Option.none ∧
    Electron.cEDM_query ⟨2020, 1e-26, "x"⟩ ≠
      Except.error PyError.unimplementedConversion :=
  ⟨rfl, by simp [Hadronic.EDMLimit.theta_QCD_query], rfl,
    by simp [Electron.cEDM_query, Hadronic.EDMLimit.cEDM_query]⟩

/-- C3 amended: querying theta_QCD or chromo-EDM on the abstract base
entity, or chromo-EDM (equally theta_QCD) on the electron variant,
returns Python `None` — no numeric value — and raises no error at all;
in particular no `UnimplementedConversion` is signalled. -/
theorem claim_C3_base_queries_return_none (l : EDMLimit) :
    Hadronic.EDMLimit.theta_QCD_query l = Except.ok Option.none ∧
    Hadronic.EDMLimit.cEDM_query l = Except.ok Option.none ∧
    Electron.cEDM_query l = Except.ok Option.none ∧
    Electron.theta_QCD_query l = Except.ok Option.none ∧
    (∀ e : PyError, Hadronic.EDMLimit.theta_QCD_query l ≠ Except.error e) ∧
    (∀ e : PyError, Hadronic.EDMLimit.cEDM_query l ≠ Except.error e) ∧
    (∀ e : PyError, Electron.cEDM_query l ≠ Except.error e) :=
  ⟨rfl, rfl, rfl, rfl,
    fun _ => by simp [Hadronic.EDMLimit.theta_QCD_query],
    fun _ => by simp [Hadronic.EDMLimit.cEDM_query],
    fun _ => by simp [Electron.cEDM_query, Hadronic.EDMLimit.cEDM_query]⟩

/-- C9: on the electron variant (and on the abstract base), the
inherited `new_particle_mass_from_cEDM` property is reachable but
always fails with a `TypeError`: the inherited chromo-EDM property
returns `None`, which the mass-scale function multiplies by a float.
It neither raises `UnimplementedConversion` nor returns a number. -/
theorem claim_C9_inherited_mass_property_fails (l : EDMLimit) :
    Electron.new_particle_mass_from_cEDM_query l = Except.error PyError.typeError ∧
    Hadronic.EDMLimit.new_particle_mass_from_cEDM_query l =
      Except.error PyError.typeError ∧
    Electron.new_particle_mass_from_cEDM_query l ≠
      Except.error PyError.unimplementedConversion ∧
    (∀ x : ℝ, Electron.new_particle_mass_from_cEDM_query l ≠ Except.ok x) :=
  ⟨rfl, rfl,
    by simp [Electron.new_particle_mass_from_cEDM_query,
      Hadronic.EDMLimit.new_particle_mass_from_cEDM_query,
      Hadronic.EDMLimit.cEDM_query, Hadronic.chromo_EDM_mass_on_py_value],
    fun _ => by simp [Electron.new_particle_mass_from_cEDM_query,
      Hadronic.EDMLimit.new_particle_mass_from_cEDM_query,
      Hadronic.EDMLimit.cEDM_query, Hadronic.chromo_EDM_mass_on_py_value]⟩

/-- C4: for every hadronic variant and bound, the convenience property
`new_particle_mass_from_cEDM` equals the section 4.3 mass-scale
function applied to that variant's chromo-EDM limit (round-trip
sanity), and the two verbatim copies of the mass-scale function — in
`hadronic.py` and in `schiff.py` — compute the same function: they
return the same TeV value at every chromo-EDM input. -/
theorem claim_C4_round_trip_and_duplicate_agreement (l : EDMLimit) :
    Hadronic.NeutronLimit.new_particle_mass_from_cEDM l =
      Schiff.chromo_EDM_limits_on_new_particle_mass (Hadronic.NeutronLimit.cEDM l) ∧
    Hadronic.HgLimit.new_particle_mass_from_cEDM l =
      Schiff.chromo_EDM_limits_on_new_particle_mass (Hadronic.HgLimit.cEDM l) ∧
    Hadronic.XeLimit.new_particle_mass_from_cEDM l =
      Schiff.chromo_EDM_limits_on_new_particle_mass (Hadronic.XeLimit.cEDM l) ∧
    Hadronic.TlFLimit.new_particle_mass_from_cEDM l =
      Schiff.chromo_EDM_limits_on_new_particle_mass (Hadronic.TlFLimit.cEDM l) ∧
    Hadronic.RaLimit.new_particle_mass_from_cEDM l =
      Schiff.chromo_EDM_limits_on_new_particle_mass (Hadronic.RaLimit.cEDM l) ∧
    Hadronic.YbLimit.new_particle_mass_from_cEDM l =
      Schiff.chromo_EDM_limits_on_new_particle_mass (Hadronic.YbLimit.cEDM l) ∧
    (∀ d_q : ℝ, Hadronic.chromo_EDM_limits_on_new_particle_mass d_q =
      Schiff.chromo_EDM_limits_on_new_particle_mass d_q) :=
  ⟨rfl, rfl, rfl, rfl, rfl, rfl, fun _ => rfl⟩

/-- C5: for every settings and molecule with nonzero a_0, a_1, a_2, the
g_i sensitivities equal `schiff_moment_sensitivity/(prefactor * a_i)`,
where the prefactor is `2*m_N*g_A/F_pi` with `g_A = 0.746-(-0.508) =
1.254`, `F_pi = 185` and `m_N = 995`; the g_0 and g_2 results are
absolute values (hence nonnegative) while g_1 keeps the sign of
`schiff_moment_sensitivity/a_1`. -/
theorem claim_C5_g_i_sensitivities (s : Schiff.MeasurementSettings)
    (m : Schiff.Molecule) (ha0 : m.a_0 ≠ 0) (ha1 : m.a_1 ≠ 0) (ha2 : m.a_2 ≠ 0) :
    Schiff.g_0_sensitivity s m =
      |Schiff.schiff_moment_sensitivity s m /
        (Schiff.g_pi_NN_to_Schiff_factor * m.a_0)| ∧
    Schiff.g_1_sensitivity s m =
      Schiff.schiff_moment_sensitivity s m /
        (Schiff.g_pi_NN_to_Schiff_factor * m.a_1) ∧
    Schiff.g_2_sensitivity s m =
      |Schiff.schiff_moment_sensitivity s m /
        (Schiff.g_pi_NN_to_Schiff_factor * m.a_2)| ∧
    Schiff.g_pi_NN_to_Schiff_factor = 2 * 995 * 1.254 / 185 ∧
    0 ≤ Schiff.g_0_sensitivity s m ∧
    0 ≤ Schiff.g_2_sensitivity s m := by
  refine ⟨rfl, rfl, rfl, ?_, abs_nonneg _, abs_nonneg _⟩
  simp only [Schiff.g_pi_NN_to_Schiff_factor]
  norm_num

/-- Witness for C5: the default molecule has nonzero a_0, a_1 and a_2,
and the theorem applied at the defaults gives the g_1 formula there. -/
theorem claim_C5_witness :
    Schiff.defaultMolecule.a_0 ≠ 0 ∧
    Schiff.g_1_sensitivity Schiff.defaultSettings Schiff.defaultMolecule =
      Schiff.schiff_moment_sensitivity Schiff.defaultSettings Schiff.defaultMolecule /
        (Schiff.g_pi_NN_to_Schiff_factor * Schiff.defaultMolecule.a_1) :=
  ⟨by norm_num [Schiff.defaultMolecule],
    (claim_C5_g_i_sensitivities Schiff.defaultSettings Schiff.defaultMolecule
      (by norm_num [Schiff.defaultMolecule]) (by norm_num [Schiff.defaultMolecule])
      (by norm_num [Schiff.defaultMolecule])).2.1⟩

/-- C6 counterexample: the neutron theta_QCD conversion does not take
the absolute value of the bound implicitly: at `edm_bound = -1` the
result differs from the result at `edm_bound = 1`. -/
theorem claim_C6_counterexample :
    Hadronic.NeutronLimit.theta_QCD ⟨2020, -1, "x"⟩ ≠
      Hadronic.NeutronLimit.theta_QCD ⟨2020, 1, "x"⟩ := by
  simp only [Hadronic.NeutronLimit.theta_QCD]
  norm_num

/-- C6 amended: no per-system conversion applies an absolute value; all
of them are odd (signed linear) in the bound: for every variant, both
theta_QCD and chromo-EDM at `-b` equal the negatives of their values at
`b` (treating the bound as a magnitude is a caller-side convention). -/
theorem claim_C6_conversions_are_odd (y : ℤ) (b : ℝ) (r : String) :
    Hadronic.NeutronLimit.theta_QCD ⟨y, -b, r⟩ =
      -Hadronic.NeutronLimit.theta_QCD ⟨y, b, r⟩ ∧
    Hadronic.NeutronLimit.cEDM ⟨y, -b, r⟩ = -Hadronic.NeutronLimit.cEDM ⟨y, b, r⟩ ∧
    Hadronic.HgLimit.theta_QCD ⟨y, -b, r⟩ = -Hadronic.HgLimit.theta_QCD ⟨y, b, r⟩ ∧
    Hadronic.HgLimit.cEDM ⟨y, -b, r⟩ = -Hadronic.HgLimit.cEDM ⟨y, b, r⟩ ∧
    Hadronic.XeLimit.theta_QCD ⟨y, -b, r⟩ = -Hadronic.XeLimit.theta_QCD ⟨y, b, r⟩ ∧
    Hadronic.XeLimit.cEDM ⟨y, -b, r⟩ = -Hadronic.XeLimit.cEDM ⟨y, b, r⟩ ∧
    Hadronic.TlFLimit.theta_QCD ⟨y, -b, r⟩ = -Hadronic.TlFLimit.theta_QCD ⟨y, b, r⟩ ∧
    Hadronic.TlFLimit.cEDM ⟨y, -b, r⟩ = -Hadronic.TlFLimit.cEDM ⟨y, b, r⟩ ∧
    Hadronic.RaLimit.theta_QCD ⟨y, -b, r⟩ = -Hadronic.RaLimit.theta_QCD ⟨y, b, r⟩ ∧
    Hadronic.RaLimit.cEDM ⟨y, -b, r⟩ = -Hadronic.RaLimit.cEDM ⟨y, b, r⟩ ∧
    Hadronic.YbLimit.theta_QCD ⟨y, -b, r⟩ = -Hadronic.YbLimit.theta_QCD ⟨y, b, r⟩ ∧
    Hadronic.YbLimit.cEDM ⟨y, -b, r⟩ = -Hadronic.YbLimit.cEDM ⟨y, b, r⟩ := by
  refine ⟨?_, ?_, ?_, ?_, ?_, ?_, ?_, ?_, ?_, ?_, ?_, ?_⟩ <;>
    (simp only [Hadronic.NeutronLimit.theta_QCD, Hadronic.NeutronLimit.cEDM,
      Hadronic.HgLimit.theta_QCD, Hadronic.HgLimit.cEDM, Hadronic.cEDM_Hg,
      Hadronic.XeLimit.theta_QCD, Hadronic.XeLimit.cEDM,
      Hadronic.TlFLimit.theta_QCD, Hadronic.TlFLimit.cEDM,
      Hadronic.TlFLimit.schiff_limit,
      Hadronic.RaLimit.theta_QCD, Hadronic.RaLimit.cEDM,
      Hadronic.RaLimit.schiff_limit, Hadronic.RaLimit.g1,
      Hadronic.YbLimit.theta_QCD, Hadronic.YbLimit.cEDM,
      Hadronic.YbLimit.schiff_limit]) <;>
    ring

/-- C8: every `EDMLimit` instance is immutable after construction:
evaluating any derived property (theta_QCD, chromo-EDM, the Schiff
helpers, the `new_particle_mass_from_cEDM` convenience property, and
the electron one- and two-loop mass limits) returns the instance state
unchanged, and the value produced equals the corresponding pure
function of the stored fields. -/
theorem claim_C8_properties_pure_and_state_preserving (l : EDMLimit) :
    (Hadronic.NeutronLimit.theta_QCD_run l).2 = l ∧
    (Hadronic.NeutronLimit.theta_QCD_run l).1 = Hadronic.NeutronLimit.theta_QCD l ∧
    (Hadronic.NeutronLimit.cEDM_run l).2 = l ∧
    (Hadronic.NeutronLimit.cEDM_run l).1 = Hadronic.NeutronLimit.cEDM l ∧
    (Hadronic.NeutronLimit.new_particle_mass_from_cEDM_run l).2 = l ∧
    (Hadronic.NeutronLimit.new_particle_mass_from_cEDM_run l).1 =
      Hadronic.NeutronLimit.new_particle_mass_from_cEDM l ∧
    (Hadronic.HgLimit.theta_QCD_run l).2 = l ∧
    (Hadronic.HgLimit.theta_QCD_run l).1 = Hadronic.HgLimit.theta_QCD l ∧
    (Hadronic.HgLimit.cEDM_run l).2 = l ∧
    (Hadronic.HgLimit.cEDM_run l).1 = Hadronic.HgLimit.cEDM l ∧
    (Hadronic.HgLimit.new_particle_mass_from_cEDM_run l).2 = l ∧
    (Hadronic.HgLimit.new_particle_mass_from_cEDM_run l).1 =
      Hadronic.HgLimit.new_particle_mass_from_cEDM l ∧
    (Hadronic.XeLimit.theta_QCD_run l).2 = l ∧
    (Hadronic.XeLimit.theta_QCD_run l).1 = Hadronic.XeLimit.theta_QCD l ∧
    (Hadronic.XeLimit.cEDM_run l).2 = l ∧
    (Hadronic.XeLimit.cEDM_run l).1 = Hadronic.XeLimit.cEDM l ∧
    (Hadronic.XeLimit.new_particle_mass_from_cEDM_run l).2 = l ∧
    (Hadronic.XeLimit.new_particle_mass_from_cEDM_run l).1 =
      Hadronic.XeLimit.new_particle_mass_from_cEDM l ∧
    (Hadronic.TlFLimit.schiff_limit_run l).2 = l ∧
    (Hadronic.TlFLimit.schiff_limit_run l).1 = Hadronic.TlFLimit.schiff_limit l ∧
    (Hadronic.TlFLimit.theta_QCD_run l).2 = l ∧
    (Hadronic.TlFLimit.theta_QCD_run l).1 = Hadronic.TlFLimit.theta_QCD l ∧
    (Hadronic.TlFLimit.cEDM_run l).2 = l ∧
    (Hadronic.TlFLimit.cEDM_run l).1 = Hadronic.TlFLimit.cEDM l ∧
    (Hadronic.TlFLimit.new_particle_mass_from_cEDM_run l).2 = l ∧
    (Hadronic.TlFLimit.new_particle_mass_from_cEDM_run l).1 =
      Hadronic.TlFLimit.new_particle_mass_from_cEDM l ∧
    (Hadronic.RaLimit.schiff_limit_run l).2 = l ∧
    (Hadronic.RaLimit.schiff_limit_run l).1 = Hadronic.RaLimit.schiff_limit l ∧
    (Hadronic.RaLimit.theta_QCD_run l).2 = l ∧
    (Hadronic.RaLimit.theta_QCD_run l).1 = Hadronic.RaLimit.theta_QCD l ∧
    (Hadronic.RaLimit.g1_run l).2 = l ∧
    (Hadronic.RaLimit.g1_run l).1 = Hadronic.RaLimit.g1 l ∧
    (Hadronic.RaLimit.cEDM_run l).2 = l ∧
    (Hadronic.RaLimit.cEDM_run l).1 = Hadronic.RaLimit.cEDM l ∧
    (Hadronic.RaLimit.new_particle_mass_from_cEDM_run l).2 = l ∧
    (Hadronic.RaLimit.new_particle_mass_from_cEDM_run l).1 =
      Hadronic.RaLimit.new_particle_mass_from_cEDM l ∧
    (Hadronic.YbLimit.schiff_limit_run l).2 = l ∧
    (Hadronic.YbLimit.schiff_limit_run l).1 = Hadronic.YbLimit.schiff_limit l ∧
    (Hadronic.YbLimit.theta_QCD_run l).2 = l ∧
    (Hadronic.YbLimit.theta_QCD_run l).1 = Hadronic.YbLimit.theta_QCD l ∧
    (Hadronic.YbLimit.cEDM_run l).2 = l ∧
    (Hadronic.YbLimit.cEDM_run l).1 = Hadronic.YbLimit.cEDM l ∧
    (Hadronic.YbLimit.new_particle_mass_from_cEDM_run l).2 = l ∧
    (Hadronic.YbLimit.new_particle_mass_from_cEDM_run l).1 =
      Hadronic.YbLimit.new_particle_mass_from_cEDM l ∧
    (Electron.one_loop_mass_limit_run l).2 = l ∧
    (Electron.one_loop_mass_limit_run l).1 = Electron.one_loop_mass_limit l ∧
    (Electron.two_loop_mass_limit_run l).2 = l ∧
    (Electron.two_loop_mass_limit_run l).1 = Electron.two_loop_mass_limit l :=
  ⟨rfl, rfl, rfl, rfl, rfl, rfl, rfl, rfl, rfl, rfl, rfl, rfl,
    rfl, rfl, rfl, rfl, rfl, rfl, rfl, rfl, rfl, rfl, rfl, rfl,
    rfl, rfl, rfl, rfl, rfl, rfl, rfl, rfl, rfl, rfl, rfl, rfl,
    rfl, rfl, rfl, rfl, rfl, rfl, rfl, rfl, rfl, rfl, rfl, rfl⟩

/-- Scaling the chromo-EDM argument of the mass-scale expression by a
positive factor divides the result by the square root of that factor. -/
theorem mass_scale_sqrt_scaling (M P c f d k : ℝ) (hP : 0 ≤ P) (hc : 0 < c)
    (hf : 0 < f) (hd : 0 < d) (hk : 0 < k) :
    M * Real.sqrt (P * 1 / (k * d * c * f)) =
      M * Real.sqrt (P * 1 / (d * c * f)) / Real.sqrt k := by
  have h : P * 1 / (k * d * c * f) = P * 1 / (d * c * f) * k⁻¹ := by
    simp only [mul_one, div_eq_mul_inv, mul_inv]
    ring
  have hX : 0 ≤ P * 1 / (d * c * f) :=
    div_nonneg (by simpa using hP) (by positivity)
  rw [h, Real.sqrt_mul hX, Real.sqrt_inv]
  ring

/-- The mass-scale expression is strictly antitone in its chromo-EDM
argument on positive inputs. -/
theorem mass_scale_sqrt_antitone (M P c f d1 d2 : ℝ) (hM : 0 < M) (hP : 0 < P)
    (hc : 0 < c) (hf : 0 < f) (h1 : 0 < d1) (h12 : d1 < d2) :
    M * Real.sqrt (P * 1 / (d2 * c * f)) < M * Real.sqrt (P * 1 / (d1 * c * f)) := by
  have h2 : 0 < d2 := lt_trans h1 h12
  have harg : P * 1 / (d2 * c * f) < P * 1 / (d1 * c * f) := by
    rw [mul_one]
    exact div_lt_div_of_pos_left hP (by positivity)
      (by have := mul_pos hc hf; nlinarith)
  exact mul_lt_mul_of_pos_left
    (Real.sqrt_lt_sqrt (by positivity) harg) hM

/-- C10: the mass-scale function is homogeneous of degree minus one
half: for every positive chromo-EDM bound and positive factor k, the
value at `k*d_q` is the value at `d_q` divided by `sqrt k`; hence the
mass-scale limit is strictly decreasing in the bound — the opposite
direction from the linear theta_QCD and chromo-EDM channels, which are
strictly increasing in the bound. -/
theorem claim_C10_mass_scale_homogeneity (d_q k : ℝ) (hd : 0 < d_q) (hk : 0 < k) :
    Schiff.chromo_EDM_limits_on_new_particle_mass (k * d_q) =
      Schiff.chromo_EDM_limits_on_new_particle_mass d_q / Real.sqrt k ∧
    (∀ d2 : ℝ, d_q < d2 →
      Schiff.chromo_EDM_limits_on_new_particle_mass d2 <
        Schiff.chromo_EDM_limits_on_new_particle_mass d_q) ∧
    (∀ y : ℤ, ∀ r : String, ∀ b2 : ℝ, d_q < b2 →
      Hadronic.NeutronLimit.theta_QCD ⟨y, d_q, r⟩ <
        Hadronic.NeutronLimit.theta_QCD ⟨y, b2, r⟩ ∧
      Hadronic.NeutronLimit.cEDM ⟨y, d_q, r⟩ <
        Hadronic.NeutronLimit.cEDM ⟨y, b2, r⟩) := by
  refine ⟨?_, ?_, ?_⟩
  · simp only [Schiff.chromo_EDM_limits_on_new_particle_mass]
    apply mass_scale_sqrt_scaling
    · positivity
    · norm_num
    · norm_num
    · exact hd
    · exact hk
  · intro d2 h12
    simp only [Schiff.chromo_EDM_limits_on_new_particle_mass]
    apply mass_scale_sqrt_antitone
    · norm_num
    · positivity
    · norm_num
    · norm_num
    · exact hd
    · exact h12
  · intro y r b2 h12
    constructor
    · simp only [Hadronic.NeutronLimit.theta_QCD]
      exact (div_lt_div_right (by norm_num)).mpr h12
    · simp only [Hadronic.NeutronLimit.cEDM]
      exact (div_lt_div_right (by norm_num)).mpr h12

/-- Witness for C10: the hypotheses hold at `d_q = 1e-27`, `k = 4`, and
the theorem applied there gives the homogeneity identity. -/
theorem claim_C10_witness :
    (0 : ℝ) < 1e-27 ∧ (0 : ℝ) < 4 ∧
    Schiff.chromo_EDM_limits_on_new_particle_mass (4 * 1e-27) =
      Schiff.chromo_EDM_limits_on_new_particle_mass 1e-27 / Real.sqrt 4 :=
  ⟨by norm_num, by norm_num,
    (claim_C10_mass_scale_homogeneity 1e-27 4 (by norm_num) (by norm_num)).1⟩

/-- Closed form of the frequency sensitivity used for the monotonicity
arguments: the square root of the cycle time over the remaining
(positive) factors. -/
theorem frequency_sensitivity_closed_form (N beta T Td tau : ℝ)
    (hN : 0 ≤ N) (hT : 0 ≤ T) :
    Schiff.frequency_sensitivity_Hz ⟨N, beta, T, Td, tau⟩ =
      Real.sqrt (tau + Td) / (2 * Real.pi * tau * beta * Real.sqrt (N * T)) := by
  simp only [Schiff.frequency_sensitivity_Hz]
  rw [Real.sqrt_div (by positivity)]
  simp only [div_eq_mul_inv, mul_inv, inv_inv, one_mul]
  ring

/-- C7: with particle number, efficiency, measurement time and
coherence time strictly positive and down time nonnegative, the
frequency sensitivity is strictly decreasing in each of particle
number, measurement time, coherence time and efficiency (the other
fields held fixed) and strictly increasing in down time. -/
theorem claim_C7_frequency_sensitivity_monotonicity (N beta T Td tau : ℝ)
    (hN : 0 < N) (hbeta : 0 < beta) (hT : 0 < T) (htau : 0 < tau)
    (hTd : 0 ≤ Td) :
    (∀ N2, N < N2 →
      Schiff.frequency_sensitivity_Hz ⟨N2, beta, T, Td, tau⟩ <
        Schiff.frequency_sensitivity_Hz ⟨N, beta, T, Td, tau⟩) ∧
    (∀ T2, T < T2 →
      Schiff.frequency_sensitivity_Hz ⟨N, beta, T2, Td, tau⟩ <
        Schiff.frequency_sensitivity_Hz ⟨N, beta, T, Td, tau⟩) ∧
    (∀ tau2, tau < tau2 →
      Schiff.frequency_sensitivity_Hz ⟨N, beta, T, Td, tau2⟩ <
        Schiff.frequency_sensitivity_Hz ⟨N, beta, T, Td, tau⟩) ∧
    (∀ beta2, beta < beta2 →
      Schiff.frequency_sensitivity_Hz ⟨N, beta2, T, Td, tau⟩ <
        Schiff.frequency_sensitivity_Hz ⟨N, beta, T, Td, tau⟩) ∧
    (∀ Td2, Td < Td2 →
      Schiff.frequency_sensitivity_Hz ⟨N, beta, T, Td, tau⟩ <
        Schiff.frequency_sensitivity_Hz ⟨N, beta, T, Td2, tau⟩) := by
  have hpi := Real.pi_pos
  have hu : 0 < Real.sqrt (tau + Td) := Real.sqrt_pos.mpr (by linarith)
  have hv : 0 < Real.sqrt (N * T) := Real.sqrt_pos.mpr (mul_pos hN hT)
  refine ⟨?_, ?_, ?_, ?_, ?_⟩
  · intro N2 h12
    have hN2 : 0 < N2 := lt_trans hN h12
    rw [frequency_sensitivity_closed_form N2 beta T Td tau hN2.le hT.le,
      frequency_sensitivity_closed_form N beta T Td tau hN.le hT.le]
    have hs : Real.sqrt (N * T) < Real.sqrt (N2 * T) :=
      Real.sqrt_lt_sqrt (by positivity) (by nlinarith)
    exact div_lt_div_of_pos_left hu (by positivity)
      (mul_lt_mul_of_pos_left hs (by positivity))
  · intro T2 h12
    have hT2 : 0 < T2 := lt_trans hT h12
    rw [frequency_sensitivity_closed_form N beta T2 Td tau hN.le hT2.le,
      frequency_sensitivity_closed_form N beta T Td tau hN.le hT.le]
    have hs : Real.sqrt (N * T) < Real.sqrt (N * T2) :=
      Real.sqrt_lt_sqrt (by positivity) (by nlinarith)
    exact div_lt_div_of_pos_left hu (by positivity)
      (mul_lt_mul_of_pos_left hs (by positivity))
  · intro tau2 h12
    have htau2 : 0 < tau2 := lt_trans htau h12
    rw [frequency_sensitivity_closed_form N beta T Td tau2 hN.le hT.le,
      frequency_sensitivity_closed_form N beta T Td tau hN.le hT.le]
    have e2 : Real.sqrt (tau2 + Td) / (2 * Real.pi * tau2 * beta * Real.sqrt (N * T)) =
        Real.sqrt (tau2 + Td) / tau2 * (1 / (2 * Real.pi * beta * Real.sqrt (N * T))) := by
      simp only [div_eq_mul_inv, mul_inv, one_mul]
      ring
    have e1 : Real.sqrt (tau + Td) / (2 * Real.pi * tau * beta * Real.sqrt (N * T)) =
        Real.sqrt (tau + Td) / tau * (1 / (2 * Real.pi * beta * Real.sqrt (N * T))) := by
      simp only [div_eq_mul_inv, mul_inv, one_mul]
      ring
    rw [e2, e1]
    have key : (tau2 + Td) * tau ^ 2 < (tau + Td) * tau2 ^ 2 := by
      nlinarith [mul_pos (sub_pos.mpr h12) (mul_pos htau htau2),
        mul_nonneg (mul_nonneg hTd (sub_pos.mpr h12).le) (add_pos htau htau2).le]
    have hsq : (Real.sqrt (tau2 + Td) / tau2) ^ 2 <
        (Real.sqrt (tau + Td) / tau) ^ 2 := by
      rw [div_pow, div_pow, Real.sq_sqrt (by linarith), Real.sq_sqrt (by linarith),
        div_lt_div_iff (by positivity) (by positivity)]
      exact key
    have hg : Real.sqrt (tau2 + Td) / tau2 < Real.sqrt (tau + Td) / tau :=
      lt_of_pow_lt_pow_left 2 (by positivity) hsq
    exact mul_lt_mul_of_pos_right hg (by positivity)
  · intro beta2 h12
    have hbeta2 : 0 < beta2 := lt_trans hbeta h12
    rw [frequency_sensitivity_closed_form N beta2 T Td tau hN.le hT.le,
      frequency_sensitivity_closed_form N beta T Td tau hN.le hT.le]
    exact div_lt_div_of_pos_left hu (by positivity)
      (mul_lt_mul_of_pos_right (mul_lt_mul_of_pos_left h12 (by positivity)) hv)
  · intro Td2 h12
    have hTd2 : 0 ≤ Td2 := le_trans hTd h12.le
    rw [frequency_sensitivity_closed_form N beta T Td2 tau hN.le hT.le,
      frequency_sensitivity_closed_form N beta T Td tau hN.le hT.le]
    have hs : Real.sqrt (tau + Td) < Real.sqrt (tau + Td2) :=
      Real.sqrt_lt_sqrt (by positivity) (by linarith)
    exact (div_lt_div_right (by positivity)).mpr hs

/-- Witness for C7: the hypotheses hold at `N=1, beta=1, T=1, Td=0,
tau=1`, and the theorem applied there shows doubling the particle
number strictly lowers the sensitivity. -/
theorem claim_C7_witness :
    (0 : ℝ) < 1 ∧
    Schiff.frequency_sensitivity_Hz ⟨2, 1, 1, 0, 1⟩ <
      Schiff.frequency_sensitivity_Hz ⟨1, 1, 1, 0, 1⟩ :=
  ⟨by norm_num,
    (claim_C7_frequency_sensitivity_monotonicity 1 1 1 0 1 (by norm_num)
      (by norm_num) (by norm_num) (by norm_num) (by norm_num)).1 2 (by norm_num)⟩

end EDMLimits

end
